import Mathlib

/-!
Verification of the account-signup core of this repository: the
`DBCreateAccount` use-case, embedded from
`src/data/use-cases/db-create-account/db-create-account.ts`, and the
`SignUpController` request pipeline. The controller implementation file is
not among the sources (only its test suite is), so the controller and the
field validator are modelled from the specification, as marked on their
doc comments. Collaborators (Encrypter, AccountRepository, EmailValidator,
Validator) are injected as function parameters, mirroring the constructor
injection in the code; a rejected promise of a collaborator is modelled as
an `Except.error` value, and each operation additionally returns the
ordered trace of collaborator calls it performed, so that claims about
which collaborators run, how often, and in which order are statable.
-/

namespace CleanNodeApi

/-- Cause carried by a collaborator failure (a rejected promise or thrown
error); the tests pass `null` as a cause, hence the `Option`. -/
abbrev Cause := Option String

/-- Input of account creation: `CreateAccountModel` from the domain layer,
with fields name, email, password. -/
structure CreateAccountModel where
  name : String
  email : String
  password : String
deriving DecidableEq

/-- Stored account: `AccountModel` from the domain layer. -/
structure AccountModel where
  id : String
  name : String
  email : String
  password : String
deriving DecidableEq

/-- One observable collaborator call of a `DBCreateAccount.execute` run:
either a call of `encrypter.encrypt` on a plaintext, or a call of
`createAccountRepository.execute` on the record to persist. -/
inductive DBEvent where
  | encryptCall (plaintext : String)
  | repoCall (data : CreateAccountModel)
deriving DecidableEq

/-- Shallow embedding of `DBCreateAccount.execute` from
`db-create-account.ts`: awaits `encrypter.encrypt(data.password)`, then
awaits `createAccountRepository.execute(\x7b ...data, password: hashedPassword \x7d)`,
discarding its result, and finally resolves with `\x7b ...data, id: "" \x7d`.
A rejected await propagates as `Except.error`. The second component is the
ordered trace of collaborator calls performed. -/
def DBCreateAccount.execute (encrypt : String → Except Cause String)
    (repoExec : CreateAccountModel → Except Cause AccountModel)
    (data : CreateAccountModel) : Except Cause AccountModel × List DBEvent :=
  match encrypt data.password with
  | .error c => (.error c, [.encryptCall data.password])
  | .ok hashedPassword =>
    match repoExec { data with password := hashedPassword } with
    | .error c =>
      (.error c,
       [.encryptCall data.password, .repoCall { data with password := hashedPassword }])
    | .ok _ =>
      (.ok { id := "", name := data.name, email := data.email, password := data.password },
       [.encryptCall data.password, .repoCall { data with password := hashedPassword }])

/-- Repository writes extracted from a trace, in order. -/
def repoWrites : List DBEvent → List CreateAccountModel
  | [] => []
  | .encryptCall _ :: rest => repoWrites rest
  | .repoCall d :: rest => d :: repoWrites rest

/-- Domain errors from `presentation/errors`: MissingParamError,
InvalidParamError and ServerError, each carrying its argument. -/
inductive DomainError where
  | missingParam (field : String)
  | invalidParam (field : String)
  | serverError (cause : Cause)
deriving DecidableEq

/-- Body of an HTTP response: an account on success, a domain error
otherwise. -/
inductive HttpBody where
  | account (a : AccountModel)
  | err (e : DomainError)
deriving DecidableEq

/-- HTTP-style response produced by the controller. -/
structure HttpResponse where
  statusCode : Nat
  body : HttpBody
deriving DecidableEq

/-- Helper `badRequest` from `presentation/helpers/http-helper`, as used by
the controller tests: status 400 with the given error as body. -/
def badRequest (e : DomainError) : HttpResponse := ⟨400, .err e⟩

/-- Server-error response: status 500 with `ServerError(cause)` as body. -/
def serverError (c : Cause) : HttpResponse := ⟨500, .err (.serverError c)⟩

/-- Success response: status 200 with the created account as body. -/
def okResponse (a : AccountModel) : HttpResponse := ⟨200, .account a⟩

/-- Request body of the signup endpoint, an untyped payload whose fields may
be absent. -/
structure SignupBody where
  name : Option String
  email : Option String
  password : Option String
  passwordConfirmation : Option String
deriving DecidableEq

/-- Field lookup on the request body, as on an untyped key-value payload. -/
def SignupBody.get (b : SignupBody) : String → Option String
  | "name" => b.name
  | "email" => b.email
  | "password" => b.password
  | "passwordConfirmation" => b.passwordConfirmation
  | _ => none

/-- Required signup fields, in the configured order. -/
def requiredFields : List String :=
  ["name", "email", "password", "passwordConfirmation"]

/-- A field value counts as missing when it is absent or empty. -/
def isMissing : Option String → Bool
  | none => true
  | some s => s = ""

/-- Modelled from the spec: `FieldValidator.validate` (the validator
implementation file is missing from the sources; spec section 4.1).
Iterates the required field names in their fixed order and returns
`MissingParam(firstMissingField)` for the first field whose value is
absent or empty; returns none when all are present. -/
def fieldValidator (b : SignupBody) : Option DomainError :=
  (requiredFields.find? fun f => isMissing (b.get f)).map .missingParam

/-- Collaborator calls made by one `SignUpController.handle` run: the emails
passed to `EmailValidator.isValid` and the payloads passed to
`CreateAccount.execute`. -/
structure ControllerLog where
  emailChecks : List String
  useCaseCalls : List CreateAccountModel
deriving DecidableEq

/-- Modelled from the spec: `SignUpController.handle` (the controller
implementation file is missing from the sources; spec sections 4.4 and 9,
canonical Validator-based version). Linear pipeline: run the injected
validator on the body, returning 400 with its error when it yields one;
then return 400 `InvalidParam("passwordConfirmation")` when password and
passwordConfirmation differ; then call `EmailValidator.isValid(email)`,
returning 400 `InvalidParam("email")` on false and catching a failure into
500 `ServerError(cause)`; then invoke the use-case on
`\x7bname, email, password\x7d`, catching a failure into 500 and returning 200
with the produced account on success. The second component is the trace of
downstream collaborator calls. -/
def SignUpController.handle (validate : SignupBody → Option DomainError)
    (isValid : String → Except Cause Bool)
    (createAccount : CreateAccountModel → Except Cause AccountModel)
    (b : SignupBody) : HttpResponse × ControllerLog :=
  match validate b with
  | some e => (badRequest e, ⟨[], []⟩)
  | none =>
    if b.password = b.passwordConfirmation then
      match isValid (b.email.getD "") with
      | .error c => (serverError c, ⟨[b.email.getD ""], []⟩)
      | .ok false => (badRequest (.invalidParam "email"), ⟨[b.email.getD ""], []⟩)
      | .ok true =>
        match createAccount ⟨b.name.getD "", b.email.getD "", b.password.getD ""⟩ with
        | .error c =>
          (serverError c,
           ⟨[b.email.getD ""], [⟨b.name.getD "", b.email.getD "", b.password.getD ""⟩]⟩)
        | .ok a =>
          (okResponse a,
           ⟨[b.email.getD ""], [⟨b.name.getD "", b.email.getD "", b.password.getD ""⟩]⟩)
    else (badRequest (.invalidParam "passwordConfirmation"), ⟨[], []⟩)

/-- C1: evaluation of `DBCreateAccount.execute` at a concrete input where the
encrypter hashes "p" to "hashed_p" and the repository assigns id "1". The
code resolves with id "" (not the repository-assigned "1") and with the
plaintext password "p" (not "hashed_p"), because it returns
`\x7b ...data, id: "" \x7d` and discards the repository result; the claimed
return, repository id plus hashed password, does not hold of the code. -/
theorem C1_code_behavior :
    DBCreateAccount.execute (fun _ => .ok "hashed_p")
      (fun d => .ok ⟨"1", d.name, d.email, d.password⟩)
      ⟨"A", "a@b.com", "p"⟩
      = (.ok ⟨"", "A", "a@b.com", "p"⟩,
         [.encryptCall "p", .repoCall ⟨"A", "a@b.com", "hashed_p"⟩]) := by
  rfl

/-- C9: the account returned by `DBCreateAccount.execute` is determined
solely by the input data, namely `\x7b ...data, id: "" \x7d`, and the
repository return value is discarded: two runs against repositories that
resolve with arbitrary, possibly different, accounts agree entirely. -/
theorem C9_repo_independence (encrypt : String → Except Cause String)
    (repo1 repo2 : CreateAccountModel → Except Cause AccountModel)
    (data : CreateAccountModel) (h : String) (a1 a2 : AccountModel)
    (henc : encrypt data.password = .ok h)
    (h1 : repo1 { data with password := h } = .ok a1)
    (h2 : repo2 { data with password := h } = .ok a2) :
    DBCreateAccount.execute encrypt repo1 data
      = DBCreateAccount.execute encrypt repo2 data
    ∧ (DBCreateAccount.execute encrypt repo1 data).1
      = .ok ⟨"", data.name, data.email, data.password⟩ := by
  constructor <;> simp [DBCreateAccount.execute, henc, h1, h2]

/-- C9 witness: concrete run with two repositories resolving with different
accounts; the results coincide and equal the input with empty id. -/
theorem C9_repo_independence_witness :
    DBCreateAccount.execute (fun _ => .ok "H")
      (fun d => .ok ⟨"1", d.name, d.email, d.password⟩) ⟨"A", "E", "P"⟩
      = DBCreateAccount.execute (fun _ => .ok "H")
        (fun _ => .ok ⟨"2", "x", "y", "z"⟩) ⟨"A", "E", "P"⟩
    ∧ (DBCreateAccount.execute (fun _ => .ok "H")
        (fun d => .ok ⟨"1", d.name, d.email, d.password⟩) ⟨"A", "E", "P"⟩).1
      = .ok ⟨"", "A", "E", "P"⟩ :=
  C9_repo_independence (fun _ => .ok "H")
    (fun d => .ok ⟨"1", d.name, d.email, d.password⟩)
    (fun _ => .ok ⟨"2", "x", "y", "z"⟩)
    ⟨"A", "E", "P"⟩ "H" ⟨"1", "A", "E", "H"⟩ ⟨"2", "x", "y", "z"⟩ rfl rfl rfl

/-- C3: a failure of either collaborator during `DBCreateAccount.execute`
propagates unchanged to the caller, with no retry and no wrapping; and when
the encrypter fails, the trace shows that the repository is never called,
so no write is performed and state is unchanged on error. -/
theorem C3_failure_propagation (encrypt : String → Except Cause String)
    (repoExec : CreateAccountModel → Except Cause AccountModel)
    (data : CreateAccountModel) (c : Cause) :
    (encrypt data.password = .error c →
      DBCreateAccount.execute encrypt repoExec data
        = (.error c, [.encryptCall data.password]))
    ∧ (∀ h, encrypt data.password = .ok h →
        repoExec { data with password := h } = .error c →
        DBCreateAccount.execute encrypt repoExec data
          = (.error c,
             [.encryptCall data.password, .repoCall { data with password := h }])) := by
  constructor
  · intro he
    simp [DBCreateAccount.execute, he]
  · intro h he hr
    simp [DBCreateAccount.execute, he, hr]

/-- C3 witness: with a failing encrypter the error comes back unchanged and
the trace holds no repository call; with a failing repository the error
also comes back unchanged. -/
theorem C3_failure_propagation_witness :
    DBCreateAccount.execute (fun _ => .error (some "boom"))
      (fun d => .ok ⟨"1", d.name, d.email, d.password⟩) ⟨"A", "E", "P"⟩
      = (.error (some "boom"), [.encryptCall "P"])
    ∧ DBCreateAccount.execute (fun _ => .ok "H")
        (fun _ => .error (some "down")) ⟨"A", "E", "P"⟩
      = (.error (some "down"), [.encryptCall "P", .repoCall ⟨"A", "E", "H"⟩]) :=
  ⟨(C3_failure_propagation (fun _ => .error (some "boom"))
      (fun d => .ok ⟨"1", d.name, d.email, d.password⟩)
      ⟨"A", "E", "P"⟩ (some "boom")).1 rfl,
   (C3_failure_propagation (fun _ => .ok "H")
      (fun _ => .error (some "down"))
      ⟨"A", "E", "P"⟩ (some "down")).2 "H" rfl rfl⟩

/-- C4: a successful `DBCreateAccount.execute` run performs exactly one
repository write, whose value is the input with its password replaced by
the encrypter output for `data.password`, and the trace shows the encrypt
call preceding the repository call. -/
theorem C4_single_write (encrypt : String → Except Cause String)
    (repoExec : CreateAccountModel → Except Cause AccountModel)
    (data : CreateAccountModel) (h : String) (a : AccountModel)
    (henc : encrypt data.password = .ok h)
    (hrepo : repoExec { data with password := h } = .ok a) :
    DBCreateAccount.execute encrypt repoExec data
      = (.ok ⟨"", data.name, data.email, data.password⟩,
         [.encryptCall data.password, .repoCall ⟨data.name, data.email, h⟩])
    ∧ repoWrites (DBCreateAccount.execute encrypt repoExec data).2
      = [⟨data.name, data.email, h⟩] := by
  constructor <;> simp [DBCreateAccount.execute, repoWrites, henc, hrepo]

/-- C4 witness: concrete successful run with its single repository write. -/
theorem C4_single_write_witness :
    DBCreateAccount.execute (fun _ => .ok "H")
      (fun d => .ok ⟨"1", d.name, d.email, d.password⟩) ⟨"A", "E", "P"⟩
      = (.ok ⟨"", "A", "E", "P"⟩, [.encryptCall "P", .repoCall ⟨"A", "E", "H"⟩])
    ∧ repoWrites (DBCreateAccount.execute (fun _ => .ok "H")
        (fun d => .ok ⟨"1", d.name, d.email, d.password⟩) ⟨"A", "E", "P"⟩).2
      = [⟨"A", "E", "H"⟩] :=
  C4_single_write (fun _ => .ok "H")
    (fun d => .ok ⟨"1", d.name, d.email, d.password⟩)
    ⟨"A", "E", "P"⟩ "H" ⟨"1", "A", "E", "H"⟩ rfl rfl

/-- C2: when the body passes field validation, password equals
passwordConfirmation and the email validator accepts the email, the
controller invokes the use-case exactly once with exactly
name, email and password, passwordConfirmation stripped, and returns
status 200 whose body is the account the use-case produced, whose id is
non-empty. -/
theorem C2_success_path (isValid : String → Except Cause Bool)
    (createAccount : CreateAccountModel → Except Cause AccountModel)
    (b : SignupBody) (n e p : String) (a : AccountModel)
    (hn : b.name = some n) (he : b.email = some e) (hp : b.password = some p)
    (hpc : b.passwordConfirmation = some p)
    (hv : fieldValidator b = none)
    (hmail : isValid e = .ok true)
    (hca : createAccount ⟨n, e, p⟩ = .ok a)
    (hid : a.id ≠ "") :
    SignUpController.handle fieldValidator isValid createAccount b
      = (okResponse a, ⟨[e], [⟨n, e, p⟩]⟩) ∧ a.id ≠ "" := by
  refine ⟨?_, hid⟩
  simp [SignUpController.handle, hv, hn, he, hp, hpc, hmail, hca]

/-- C2 witness: a concrete well-formed request with a use-case stub
producing an account with id "anyId" yields 200 with that account and one
use-case call carrying the stripped payload. -/
theorem C2_success_path_witness :
    SignUpController.handle fieldValidator (fun _ => .ok true)
      (fun _ => .ok ⟨"anyId", "anyName", "anyEmail", "anyPassword"⟩)
      ⟨some "any name", some "anyemail@email.com", some "password", some "password"⟩
      = (okResponse ⟨"anyId", "anyName", "anyEmail", "anyPassword"⟩,
         ⟨["anyemail@email.com"], [⟨"any name", "anyemail@email.com", "password"⟩]⟩)
    ∧ ("anyId" : String) ≠ "" :=
  C2_success_path (fun _ => .ok true)
    (fun _ => .ok ⟨"anyId", "anyName", "anyEmail", "anyPassword"⟩)
    ⟨some "any name", some "anyemail@email.com", some "password", some "password"⟩
    "any name" "anyemail@email.com" "password"
    ⟨"anyId", "anyName", "anyEmail", "anyPassword"⟩
    rfl rfl rfl rfl rfl rfl rfl (by decide)

/-- C5: for a request that reaches the email-validation step, a false answer
of the email validator yields 400 with `InvalidParam("email")`, and a
failure of the email validator is caught at the controller boundary and
yields 500 with `ServerError(cause)` instead of propagating; in both cases
the use-case is never invoked. -/
theorem C5_email_step (validate : SignupBody → Option DomainError)
    (isValid : String → Except Cause Bool)
    (createAccount : CreateAccountModel → Except Cause AccountModel)
    (b : SignupBody) (e : String) (c : Cause)
    (hv : validate b = none)
    (hpw : b.password = b.passwordConfirmation)
    (he : b.email = some e) :
    (isValid e = .ok false →
      SignUpController.handle validate isValid createAccount b
        = (badRequest (.invalidParam "email"), ⟨[e], []⟩))
    ∧ (isValid e = .error c →
      SignUpController.handle validate isValid createAccount b
        = (serverError c, ⟨[e], []⟩)) := by
  constructor <;> intro hm <;> simp [SignUpController.handle, hv, hpw, he, hm]

/-- C5 witness: with an email validator stub answering false the response is
400 `InvalidParam("email")`; with a failing stub it is 500 `ServerError`. -/
theorem C5_email_step_witness :
    SignUpController.handle (fun _ => none) (fun _ => .ok false)
      (fun _ => .ok ⟨"1", "A", "E", "P"⟩)
      ⟨some "any name", some "anyemail@email.com", some "password", some "password"⟩
      = (badRequest (.invalidParam "email"), ⟨["anyemail@email.com"], []⟩)
    ∧ SignUpController.handle (fun _ => none) (fun _ => .error none)
        (fun _ => .ok ⟨"1", "A", "E", "P"⟩)
        ⟨some "any name", some "anyemail@email.com", some "password", some "password"⟩
      = (serverError none, ⟨["anyemail@email.com"], []⟩) :=
  ⟨(C5_email_step (fun _ => none) (fun _ => .ok false)
      (fun _ => .ok ⟨"1", "A", "E", "P"⟩)
      ⟨some "any name", some "anyemail@email.com", some "password", some "password"⟩
      "anyemail@email.com" none rfl rfl rfl).1 rfl,
   (C5_email_step (fun _ => none) (fun _ => .error none)
      (fun _ => .ok ⟨"1", "A", "E", "P"⟩)
      ⟨some "any name", some "anyemail@email.com", some "password", some "password"⟩
      "anyemail@email.com" none rfl rfl rfl).2 rfl⟩

/-- C6: a request body in which exactly one required field is missing gets
400 with `MissingParam` of that field, and the trace is empty: neither the
email validator nor the use-case, hence neither repository nor encrypter,
is invoked. -/
theorem C6_missing_param (isValid : String → Except Cause Bool)
    (createAccount : CreateAccountModel → Except Cause AccountModel)
    (b : SignupBody) (f : String)
    (hf : f ∈ requiredFields)
    (hmiss : isMissing (b.get f) = true)
    (hrest : ∀ g ∈ requiredFields, g ≠ f → isMissing (b.get g) = false) :
    SignUpController.handle fieldValidator isValid createAccount b
      = (badRequest (.missingParam f), ⟨[], []⟩) := by
  have hval : fieldValidator b = some (.missingParam f) := by
    simp only [requiredFields, List.mem_cons, List.not_mem_nil, or_false] at hf
    rcases hf with rfl | rfl | rfl | rfl
    · simp [fieldValidator, requiredFields, List.find?, hmiss]
    · simp [fieldValidator, requiredFields, List.find?, hmiss,
        hrest "name" (by decide) (by decide)]
    · simp [fieldValidator, requiredFields, List.find?, hmiss,
        hrest "name" (by decide) (by decide),
        hrest "email" (by decide) (by decide)]
    · simp [fieldValidator, requiredFields, List.find?, hmiss,
        hrest "name" (by decide) (by decide),
        hrest "email" (by decide) (by decide),
        hrest "password" (by decide) (by decide)]
  simp [SignUpController.handle, hval]

/-- C6 witness: a body with the name field absent and the rest present gets
400 `MissingParam("name")` and an empty collaborator trace. -/
theorem C6_missing_param_witness :
    SignUpController.handle fieldValidator (fun _ => .ok true)
      (fun _ => .ok ⟨"1", "A", "E", "P"⟩)
      ⟨none, some "anyemail@email.com", some "password", some "password"⟩
      = (badRequest (.missingParam "name"), ⟨[], []⟩) :=
  C6_missing_param (fun _ => .ok true) (fun _ => .ok ⟨"1", "A", "E", "P"⟩)
    ⟨none, some "anyemail@email.com", some "password", some "password"⟩
    "name" (by decide) (by decide) (by decide)

/-- C7: a request body with all required fields present but password
different from passwordConfirmation gets 400 with
`InvalidParam("passwordConfirmation")`, and the trace is empty: the email
validator and the use-case are never called. -/
theorem C7_password_mismatch (isValid : String → Except Cause Bool)
    (createAccount : CreateAccountModel → Except Cause AccountModel)
    (b : SignupBody)
    (hall : ∀ g ∈ requiredFields, isMissing (b.get g) = false)
    (hne : b.password ≠ b.passwordConfirmation) :
    SignUpController.handle fieldValidator isValid createAccount b
      = (badRequest (.invalidParam "passwordConfirmation"), ⟨[], []⟩) := by
  have hval : fieldValidator b = none := by
    simp [fieldValidator, requiredFields, List.find?,
      hall "name" (by decide), hall "email" (by decide),
      hall "password" (by decide), hall "passwordConfirmation" (by decide)]
  simp [SignUpController.handle, hval, hne]

/-- C7 witness: all fields present, passwordConfirmation differing from
password, yields 400 `InvalidParam("passwordConfirmation")` with an empty
trace. -/
theorem C7_password_mismatch_witness :
    SignUpController.handle fieldValidator (fun _ => .ok true)
      (fun _ => .ok ⟨"1", "A", "E", "P"⟩)
      ⟨some "any name", some "anyemail@email.com", some "password", some "password1"⟩
      = (badRequest (.invalidParam "passwordConfirmation"), ⟨[], []⟩) :=
  C7_password_mismatch (fun _ => .ok true) (fun _ => .ok ⟨"1", "A", "E", "P"⟩)
    ⟨some "any name", some "anyemail@email.com", some "password", some "password1"⟩
    (by decide) (by decide)

/-- C8: every response of the controller has status code 200, 400 or 500,
and the status code determines the body type: an account exactly on 200, a
domain error exactly on 400 or 500; the branches of the pipeline are
mutually exclusive and exhaustive, whichever collaborators are injected. -/
theorem C8_response_invariant (validate : SignupBody → Option DomainError)
    (isValid : String → Except Cause Bool)
    (createAccount : CreateAccountModel → Except Cause AccountModel)
    (b : SignupBody) :
    ((SignUpController.handle validate isValid createAccount b).1.statusCode = 200
      ∨ (SignUpController.handle validate isValid createAccount b).1.statusCode = 400
      ∨ (SignUpController.handle validate isValid createAccount b).1.statusCode = 500)
    ∧ ((SignUpController.handle validate isValid createAccount b).1.statusCode = 200
      ↔ ∃ a, (SignUpController.handle validate isValid createAccount b).1.body
          = .account a)
    ∧ (((SignUpController.handle validate isValid createAccount b).1.statusCode = 400
        ∨ (SignUpController.handle validate isValid createAccount b).1.statusCode = 500)
      ↔ ∃ e, (SignUpController.handle validate isValid createAccount b).1.body
          = .err e) := by
  unfold SignUpController.handle
  cases validate b with
  | some e => simp [badRequest]
  | none =>
    by_cases hpw : b.password = b.passwordConfirmation
    · cases isValid (b.email.getD "") with
      | error c => simp [hpw, serverError]
      | ok v =>
        cases v
        · simp [hpw, badRequest]
        · cases createAccount ⟨b.name.getD "", b.email.getD "", b.password.getD ""⟩ with
          | error c => simp [hpw, serverError]
          | ok a => simp [hpw, okResponse]
    · simp [hpw, badRequest]

/-- C8 witness: the invariant instantiated at concrete collaborator stubs
and a concrete request body. -/
theorem C8_response_invariant_witness :
    ((SignUpController.handle fieldValidator (fun _ => .ok true)
        (fun _ => .ok ⟨"1", "A", "E", "P"⟩)
        ⟨some "n", some "e", some "p", some "p"⟩).1.statusCode = 200
      ∨ (SignUpController.handle fieldValidator (fun _ => .ok true)
          (fun _ => .ok ⟨"1", "A", "E", "P"⟩)
          ⟨some "n", some "e", some "p", some "p"⟩).1.statusCode = 400
      ∨ (SignUpController.handle fieldValidator (fun _ => .ok true)
          (fun _ => .ok ⟨"1", "A", "E", "P"⟩)
          ⟨some "n", some "e", some "p", some "p"⟩).1.statusCode = 500)
    ∧ ((SignUpController.handle fieldValidator (fun _ => .ok true)
          (fun _ => .ok ⟨"1", "A", "E", "P"⟩)
          ⟨some "n", some "e", some "p", some "p"⟩).1.statusCode = 200
      ↔ ∃ a, (SignUpController.handle fieldValidator (fun _ => .ok true)
          (fun _ => .ok ⟨"1", "A", "E", "P"⟩)
          ⟨some "n", some "e", some "p", some "p"⟩).1.body = .account a)
    ∧ (((SignUpController.handle fieldValidator (fun _ => .ok true)
          (fun _ => .ok ⟨"1", "A", "E", "P"⟩)
          ⟨some "n", some "e", some "p", some "p"⟩).1.statusCode = 400
        ∨ (SignUpController.handle fieldValidator (fun _ => .ok true)
            (fun _ => .ok ⟨"1", "A", "E", "P"⟩)
            ⟨some "n", some "e", some "p", some "p"⟩).1.statusCode = 500)
      ↔ ∃ e, (SignUpController.handle fieldValidator (fun _ => .ok true)
          (fun _ => .ok ⟨"1", "A", "E", "P"⟩)
          ⟨some "n", some "e", some "p", some "p"⟩).1.body = .err e) :=
  C8_response_invariant fieldValidator (fun _ => .ok true)
    (fun _ => .ok ⟨"1", "A", "E", "P"⟩) ⟨some "n", some "e", some "p", some "p"⟩

/-- C10: whenever the injected validator returns an error on the full
request body, the controller answers with the badRequest response for
exactly that error value: status 400 with that same error as body, and no
downstream call is made. -/
theorem C10_validator_error (validate : SignupBody → Option DomainError)
    (isValid : String → Except Cause Bool)
    (createAccount : CreateAccountModel → Except Cause AccountModel)
    (b : SignupBody) (e : DomainError)
    (hv : validate b = some e) :
    SignUpController.handle validate isValid createAccount b
      = (badRequest e, ⟨[], []⟩) := by
  simp [SignUpController.handle, hv]

/-- C10 witness: a validator stub answering `MissingParam("any_field")` on a
well-formed body makes the controller return exactly
`badRequest(MissingParam("any_field"))`. -/
theorem C10_validator_error_witness :
    SignUpController.handle (fun _ => some (.missingParam "any_field"))
      (fun _ => .ok true) (fun _ => .ok ⟨"1", "A", "E", "P"⟩)
      ⟨some "any name", some "anyemail@email.com", some "password", some "password"⟩
      = (badRequest (.missingParam "any_field"), ⟨[], []⟩) :=
  C10_validator_error (fun _ => some (.missingParam "any_field"))
    (fun _ => .ok true) (fun _ => .ok ⟨"1", "A", "E", "P"⟩)
    ⟨some "any name", some "anyemail@email.com", some "password", some "password"⟩
    (.missingParam "any_field") rfl

end CleanNodeApi
